import Mathlib

/-!
Shallow embedding of the weather-agent scripts of the `google-adk-sandbox`
repository, covering:

* `src/weather_agentteam_multimodel_stateful/agentteam_statefulsession.py`
  (the stateful `get_weather` tool, the `block_keyword_guardrail`
  pre-model hook, the `block_city_tool_guardrail` pre-tool hook and the
  event loop of `call_agent_async`), and
* `src/weather_agent_multimodel/agent_session.py` (the stateless
  `get_weather` tool).

Python strings are modelled as Lean `String`; the strings occurring in
this program are ASCII plus the degree sign, for which Python's
`str.lower` / `str.upper` / `str.capitalize` agree with the character-wise
Lean translations below.  Python `None`-able values are modelled as
`Option`; Python truthiness of a string `s` is `s ≠ ""` (for an
`Optional[str]`, `some s` with `s ≠ ""`).  The session state is a
key-value map modelled as an association list where a write prepends
(lookup takes the first hit, giving dict-overwrite semantics).
-/

/-- Python `str.lower()` (adequate for the ASCII strings of this program). -/
def pyLower (s : String) : String :=
  String.mk (s.data.map Char.toLower)

/-- Python `str.upper()` (adequate for the ASCII strings of this program). -/
def pyUpper (s : String) : String :=
  String.mk (s.data.map Char.toUpper)

/-- Python `str.capitalize()`: first character upper-cased, the rest
lower-cased (adequate for the ASCII strings of this program). -/
def pyCapitalize (s : String) : String :=
  match s.data with
  | [] => ""
  | c :: cs => String.mk (c.toUpper :: cs.map Char.toLower)

/-- Python `s.replace(" ", "")`: drop every space character. -/
def removeSpaces (s : String) : String :=
  String.mk (s.data.filter (fun c => c ≠ ' '))

/-- Does the character list `h` start with the character list `n`? -/
def leadsWith : List Char → List Char → Bool
  | [], _ => true
  | _ :: _, [] => false
  | a :: as, b :: bs => a == b && leadsWith as bs

/-- Does the character list `h` contain `n` as a contiguous run? -/
def containsSub (n : List Char) : List Char → Bool
  | [] => leadsWith n []
  | c :: t => leadsWith n (c :: t) || containsSub n t

/-- Python `n in h` on strings: substring containment. -/
def strContains (n h : String) : Bool :=
  containsSub n.data h.data

/-- A value stored in the session state: the program stores booleans
(guardrail flags) and strings (unit preference, city, report). -/
inductive SVal where
  | b (v : Bool)
  | s (v : String)
deriving DecidableEq, Repr

/-- Session state: the key-value map behind `tool_context.state` /
`callback_context.state`. -/
def SessState := List (String × SVal)

instance : DecidableEq SessState := by
  unfold SessState
  infer_instance

/-- Python `state.get(key)` (no default): the first binding of `key`. -/
def stateGet (st : SessState) (k : String) : Option SVal :=
  st.lookup k

/-- Python `state[key] = v`: prepend, so that `stateGet` sees the new
binding first (dict-overwrite semantics). -/
def stateSet (st : SessState) (k : String) (v : SVal) : SessState :=
  (k, v) :: st

/-- Python `state.get("user_preference_temperature_unit", "Celsius")` as
read by the stateful `get_weather` (line 59 of the stateful script). -/
def preferredUnit (st : SessState) : SVal :=
  (stateGet st "user_preference_temperature_unit").getD (SVal.s "Celsius")

/-- One entry of the stateful script's `mock_weather_db`: a Celsius
temperature and a condition string. -/
structure WeatherEntry where
  tempC : Nat
  condition : String
deriving DecidableEq, Repr

/-- The `mock_weather_db` literal of the stateful `get_weather`
(lines 65-69). -/
def mock_weather_db : List (String × WeatherEntry) :=
  [("newyork", ⟨25, "sunny"⟩),
   ("london", ⟨15, "cloudy"⟩),
   ("tokyo", ⟨18, "light rain"⟩)]

/-- The `city.lower().replace(" ", "")` normalization (line 62). -/
def normalizeCity (city : String) : String :=
  removeSpaces (pyLower city)

/-- The result dictionary shape shared by both `get_weather` variants and
by the tool guardrail's override: `{"status": "success", "report": ...}`
or `{"status": "error", "error_message": ...}`.  The functions are total,
so no further shape (and no exception) is possible. -/
inductive WeatherResult where
  | success (report : String)
  | error (error_message : String)
deriving DecidableEq, Repr

/-- Python `f"{(temp_c * 9/5) + 32:.0f}"` for a natural `temp_c`: the
exact value is `(9 * temp_c + 160) / 5`, a multiple of `1/5`, so the
float is rounded to the nearest integer and a tie (which would round to
even) can never arise; `(2 * a + 5) / 10` is round-to-nearest of `a / 5`
on naturals. -/
def fmtFahrenheit (tempC : Nat) : String :=
  toString ((2 * (9 * tempC + 160) + 5) / 10)

/-- The stateful `get_weather` of
`weather_agentteam_multimodel_stateful/agentteam_statefulsession.py`
(lines 44-97): reads the unit preference from state, looks the normalized
city up in `mock_weather_db`, formats the report, and on success writes
`last_city_checked_stateful` back to state.  Returns the result together
with the state after the call. -/
def get_weather (city : String) (st : SessState) : WeatherResult × SessState :=
  let city_normalized := normalizeCity city
  match mock_weather_db.lookup city_normalized with
  | some data =>
      let temp : String × String :=
        if preferredUnit st = SVal.s "Fahrenheit" then
          (fmtFahrenheit data.tempC, "°F")
        else
          (toString data.tempC, "°C")
      let report :=
        "The weather in " ++ pyCapitalize city ++ " is " ++ data.condition ++
          " with a temperature of " ++ temp.1 ++ temp.2 ++ "."
      (WeatherResult.success report,
        stateSet st "last_city_checked_stateful" (SVal.s city))
  | none =>
      (WeatherResult.error
        ("Sorry, I don't have weather information for '" ++ city ++ "'."), st)

namespace WeatherAgent

/-- The `mock_weather_db` of `weather_agent_multimodel/agent_session.py`
(lines 54-58): pre-formatted success results. -/
def mock_weather_db : List (String × String) :=
  [("newyork", "The weather in New York is sunny with a temperature of 25°C."),
   ("london", "It's cloudy in London with a temperature of 15°C."),
   ("tokyo", "Tokyo is experiencing light rain and a temperature of 18°C.")]

/-- The stateless `get_weather` of
`weather_agent_multimodel/agent_session.py` (lines 38-63). -/
def get_weather (city : String) : WeatherResult :=
  match mock_weather_db.lookup (normalizeCity city) with
  | some entry => WeatherResult.success entry
  | none =>
      WeatherResult.error
        ("Sorry, I don't have weather information for '" ++ city ++ "'.")

end WeatherAgent

/-- A `google.genai.types.Part` (named `GPart` to avoid Mathlib's `Part`): the script only ever reads `part.text`,
an `Optional[str]`. -/
structure GPart where
  text : Option String
deriving DecidableEq, Repr

/-- A `google.genai.types.Content`: a role plus a list of parts. -/
structure Content where
  role : String
  parts : List GPart
deriving DecidableEq, Repr

/-- The `event.actions` object: the script only ever reads
`actions.escalate`. -/
structure EventActions where
  escalate : Bool
deriving DecidableEq, Repr

/-- One ADK event as consumed by `call_agent_async` (lines 364-376 of the
stateful script): `is_final_response()` is a framework-provided tag on
the event, modelled as the field `final` (the spec: events are "tagged as
intermediate or final"); `content`, `actions` and `error_message` are the
`Optional` fields the loop reads. -/
structure Event where
  final : Bool
  content : Option Content
  actions : Option EventActions
  errorMessage : Option String
deriving DecidableEq, Repr

/-- Python `x or default` for an `Optional[str] x`: `None` and the empty
string are falsy. -/
def pyOrStr (x : Option String) (default : String) : String :=
  match x with
  | none => default
  | some s => if s = "" then default else s

/-- The event loop of `call_agent_async` (both scripts, identical code):
`final_response_text` starts as the default sentence; the loop stops at
the first event whose `is_final_response()` is true and takes
`content.parts[0].text` when `content` and `content.parts` are truthy,
else the escalation message when `actions and actions.escalate`, else
keeps the default.  The result is `Optional[str]` because
`parts[0].text` can be `None`. -/
def call_agent_async_text : List Event → Option String
  | [] => some "Agent did not produce a final response."
  | e :: rest =>
    if e.final then
      match e.content with
      | some ⟨_, p :: _⟩ => p.text
      | _ =>
        match e.actions with
        | some a =>
          if a.escalate then
            some ("Agent escalated: " ++ pyOrStr e.errorMessage "No specific message.")
          else
            some "Agent did not produce a final response."
        | none => some "Agent did not produce a final response."
    else
      call_agent_async_text rest

/-- The prefix of an event sequence up to and including its first final
event (the whole sequence when no event is final): the part of the
sequence `call_agent_async` actually consumes. -/
def upToFirstFinal : List Event → List Event
  | [] => []
  | e :: rest => if e.final then [e] else e :: upToFirstFinal rest

/-- An `LlmRequest` as read by `block_keyword_guardrail`: only its
`contents` list is inspected. -/
structure LlmRequest where
  contents : List Content
deriving DecidableEq, Repr

/-- An `LlmResponse` as built by `block_keyword_guardrail`: only its
`content` is set. -/
structure LlmResponse where
  content : Content
deriving DecidableEq, Repr

/-- The text of the first part of a content, when there is a first part:
`content.parts[0].text` guarded by `content.parts` being nonempty. -/
def firstPartText (c : Content) : Option String :=
  match c.parts with
  | [] => none
  | p :: _ => p.text

/-- The scan loop of `block_keyword_guardrail` (lines 212-220), already
applied to the reversed contents list: walk the messages from most recent
to oldest; at a message with `role == 'user'` and truthy `parts` whose
`parts[0].text` is truthy, take that text and stop; otherwise keep
scanning; default to the empty string. -/
def findUserText : List Content → String
  | [] => ""
  | c :: rest =>
    if c.role = "user" then
      match firstPartText c with
      | some t => if t = "" then findUserText rest else t
      | none => findUserText rest
    else
      findUserText rest

/-- The `last_user_message_text` extraction of `block_keyword_guardrail`
(lines 212-220): scan `llm_request.contents` in reverse. -/
def lastUserMessageText (contents : List Content) : String :=
  findUserText contents.reverse

/-- The synthetic `LlmResponse` returned on a block (lines 233-239):
role "model", one part with the fixed announcement text (the f-string
with `keyword_to_block = "BLOCK"` interpolated). -/
def blockedLlmResponse : LlmResponse :=
  ⟨⟨"model",
    [⟨some "I cannot process this request because it contains the blocked keyword 'BLOCK'."⟩]⟩⟩

/-- `block_keyword_guardrail` (lines 200-243): extract the latest user
message text; when `"BLOCK" in text.upper()`, set the state flag
`guardrail_block_keyword_triggered` to `True` and return the synthetic
response (an override); otherwise return `None` (proceed) with the state
untouched.  Returned as (optional override, state after the call). -/
def block_keyword_guardrail (st : SessState) (req : LlmRequest) :
    Option LlmResponse × SessState :=
  let text := lastUserMessageText req.contents
  if strContains "BLOCK" (pyUpper text) then
    (some blockedLlmResponse,
      stateSet st "guardrail_block_keyword_triggered" (SVal.b true))
  else
    (none, st)

/-- The claim-side rendering of "the most recent message with role
`user`" together with its text, read as the concatenation of the texts of
all its parts (so that a message with several parts still has a
well-defined text): used to compare the spec's wording against the
extraction the code performs. -/
def specMostRecentUserText (contents : List Content) : Option String :=
  match contents.reverse.find? (fun c => c.role == "user") with
  | none => none
  | some c => some (String.join (c.parts.map (fun p => p.text.getD "")))

/-- The amended extraction rule, written from the amended claim's words:
scanning from the most recent message backward, take the text of the
first part of the first message whose role is `user` and whose first
part carries nonempty text; default to the empty string. -/
def specLatestUsableUserText (contents : List Content) : String :=
  match contents.reverse.find?
      (fun c => c.role == "user" && ((firstPartText c).getD "" != "")) with
  | none => ""
  | some c => (firstPartText c).getD ""

/-- Python `args.get("city", "")` on the tool argument map (city values
are strings). -/
def cityArg (args : List (String × String)) : String :=
  (args.lookup "city").getD ""

/-- `block_city_tool_guardrail` (lines 247-289): when the tool name is
`"get_weather"` and the `city` argument is truthy with
`city.lower() in ["paris"]`, set the state flag
`guardrail_tool_block_triggered` to `True` and return the error
dictionary (an override); otherwise return `None` (proceed) with the
state untouched.  Returned as (optional override, state after the
call). -/
def block_city_tool_guardrail (st : SessState) (toolName : String)
    (args : List (String × String)) : Option WeatherResult × SessState :=
  if toolName = "get_weather" then
    let city_argument := cityArg args
    if city_argument ≠ "" ∧ pyLower city_argument ∈ ["paris"] then
      (some (WeatherResult.error
          ("Policy restriction: Weather checks for '" ++
            pyCapitalize city_argument ++
            "' are currently disabled by a tool guardrail.")),
        stateSet st "guardrail_tool_block_triggered" (SVal.b true))
    else
      (none, st)
  else
    (none, st)

/-! Helper lemmas about substring containment. -/

/-- A list starts with itself followed by anything. -/
theorem leadsWith_self_append (n b : List Char) : leadsWith n (n ++ b) = true := by
  induction n with
  | nil => rfl
  | cons c t ih => simp [leadsWith, ih]

/-- A list contains itself followed by anything. -/
theorem containsSub_self_append (n b : List Char) : containsSub n (n ++ b) = true := by
  cases n with
  | nil =>
    cases b with
    | nil => rfl
    | cons c t => simp [containsSub, leadsWith]
  | cons c t =>
    have h := leadsWith_self_append (c :: t) b
    simp only [List.cons_append] at h
    simp [containsSub, h]

/-- Containment is preserved by prepending material. -/
theorem containsSub_append_left (n y : List Char) (h : containsSub n y = true) :
    ∀ x : List Char, containsSub n (x ++ y) = true := by
  intro x
  induction x with
  | nil => simpa using h
  | cons c t ih => simp [containsSub, ih]

/-- Python's float rounding of `(temp_c * 9/5) + 32` at format `.0f`
agrees with the embedded natural-number formatter: the value is a
multiple of `1/5`, so no tie arises and round-to-nearest is exact. -/
theorem fmtFahrenheit_eq_round (t : ℕ) :
    fmtFahrenheit t = toString (round (((t : ℚ) * 9) / 5 + 32)) := by
  have h1 : ((t : ℚ) * 9) / 5 + 32 + 1 / 2 =
      ((2 * (9 * t + 160) + 5 : ℕ) : ℚ) / ((10 : ℕ) : ℚ) := by
    push_cast
    ring
  have h2 : round (((t : ℚ) * 9) / 5 + 32) =
      (((2 * (9 * t + 160) + 5) / 10 : ℕ) : ℤ) := by
    rw [round_eq, h1, Rat.floor_natCast_div_natCast]
    exact (Int.natCast_div _ _).symm
  rw [h2]
  rfl

/-- Claim C8: for every city string and (in the stateful variant) every
session state, `get_weather` returns exactly one of two shapes — a
success result carrying a report when the normalized city is in the mock
database, or an error result whose message is exactly
`Sorry, I don't have weather information for '<city>'.` when it is not.
Totality of the embedded functions over the `WeatherResult` type renders
the absence of any further shape or exception. -/
theorem c8_get_weather_result_shape (city : String) (st : SessState) :
    (((mock_weather_db.lookup (normalizeCity city)).isSome = true ∧
        ∃ rep, (get_weather city st).1 = WeatherResult.success rep) ∨
      (mock_weather_db.lookup (normalizeCity city) = none ∧
        (get_weather city st).1 = WeatherResult.error
          ("Sorry, I don't have weather information for '" ++ city ++ "'."))) ∧
    (((WeatherAgent.mock_weather_db.lookup (normalizeCity city)).isSome = true ∧
        ∃ rep, WeatherAgent.get_weather city = WeatherResult.success rep) ∨
      (WeatherAgent.mock_weather_db.lookup (normalizeCity city) = none ∧
        WeatherAgent.get_weather city = WeatherResult.error
          ("Sorry, I don't have weather information for '" ++ city ++ "'."))) := by
  constructor
  · cases h : mock_weather_db.lookup (normalizeCity city) with
    | none => exact Or.inr ⟨rfl, by simp [get_weather, h]⟩
    | some e =>
      refine Or.inl ⟨by simp [h], ?_⟩
      simp only [get_weather, h]
      exact ⟨_, rfl⟩
  · cases h : WeatherAgent.mock_weather_db.lookup (normalizeCity city) with
    | none => exact Or.inr ⟨rfl, by simp [WeatherAgent.get_weather, h]⟩
    | some e =>
      refine Or.inl ⟨by simp [h], ?_⟩
      simp only [WeatherAgent.get_weather, h]
      exact ⟨_, rfl⟩

/-- Claim C9: for every city not present in the mock database, the
stateful `get_weather` returns its error result and the session state
after the call is exactly the state before the call — the
`last_city_checked_stateful` write happens only on the success path. -/
theorem c9_get_weather_error_preserves_state (city : String) (st : SessState)
    (h : mock_weather_db.lookup (normalizeCity city) = none) :
    (get_weather city st).2 = st ∧
      (get_weather city st).1 = WeatherResult.error
        ("Sorry, I don't have weather information for '" ++ city ++ "'.") := by
  constructor <;> simp [get_weather, h]

/-- Witness for C9 at the unknown city `Atlantis` and a concrete state. -/
theorem c9_witness :
    mock_weather_db.lookup (normalizeCity "Atlantis") = none ∧
      (get_weather "Atlantis"
          [("user_preference_temperature_unit", SVal.s "Celsius")]).2 =
        [("user_preference_temperature_unit", SVal.s "Celsius")] ∧
      (get_weather "Atlantis"
          [("user_preference_temperature_unit", SVal.s "Celsius")]).1 =
        WeatherResult.error
          ("Sorry, I don't have weather information for 'Atlantis'.") :=
  ⟨by decide,
    (c9_get_weather_error_preserves_state "Atlantis"
        [("user_preference_temperature_unit", SVal.s "Celsius")] (by decide)).1,
    (c9_get_weather_error_preserves_state "Atlantis"
        [("user_preference_temperature_unit", SVal.s "Celsius")] (by decide)).2⟩

/-- Claim C10: the temperature-unit preference is matched
case-sensitively against the exact string `Fahrenheit`; for every stored
value other than that exact string — including a missing key, which
defaults to `Celsius` — the stateful `get_weather` reports the
temperature in Celsius (`<temp_c>°C` appears in the report). -/
theorem c10_unit_match_case_sensitive (st : SessState) (city : String)
    (e : WeatherEntry)
    (hdb : mock_weather_db.lookup (normalizeCity city) = some e)
    (hpref : preferredUnit st ≠ SVal.s "Fahrenheit") :
    ∃ rep, (get_weather city st).1 = WeatherResult.success rep ∧
      strContains (toString e.tempC ++ "°C") rep = true := by
  have hres : (get_weather city st).1 = WeatherResult.success
      ("The weather in " ++ pyCapitalize city ++ " is " ++ e.condition ++
        " with a temperature of " ++ toString e.tempC ++ "°C" ++ ".") := by
    simp [get_weather, hdb, hpref]
  refine ⟨_, hres, ?_⟩
  simp only [strContains, String.data_append, List.append_assoc]
  apply containsSub_append_left
  apply containsSub_append_left
  apply containsSub_append_left
  apply containsSub_append_left
  apply containsSub_append_left
  rw [← List.append_assoc]
  exact containsSub_self_append _ _

/-- Witness for C10: with the preference stored as `FAHRENHEIT` (wrong
case) the report for London is still in Celsius. -/
theorem c10_witness :
    preferredUnit [("user_preference_temperature_unit", SVal.s "FAHRENHEIT")] ≠
        SVal.s "Fahrenheit" ∧
      mock_weather_db.lookup (normalizeCity "London") = some ⟨15, "cloudy"⟩ ∧
      ∃ rep,
        (get_weather "London"
            [("user_preference_temperature_unit", SVal.s "FAHRENHEIT")]).1 =
          WeatherResult.success rep ∧
        strContains (toString (15 : Nat) ++ "°C") rep = true :=
  ⟨by decide, by decide,
    c10_unit_match_case_sensitive
      [("user_preference_temperature_unit", SVal.s "FAHRENHEIT")]
      "London" ⟨15, "cloudy"⟩ (by decide) (by decide)⟩

/-- Claim C3: with the preference set to `Fahrenheit`, every database
city's report carries the temperature `(temp_c * 9/5) + 32` rounded to
an integer and suffixed `°F`; in particular New York (25°C) reports
`77°F`, and with the preference `Celsius` London reports `15°C` and
`cloudy`. -/
theorem c3_fahrenheit_conversion :
    (∀ (st : SessState) (city : String) (e : WeatherEntry),
        stateGet st "user_preference_temperature_unit" =
            some (SVal.s "Fahrenheit") →
        mock_weather_db.lookup (normalizeCity city) = some e →
        ∃ rep, (get_weather city st).1 = WeatherResult.success rep ∧
          strContains
            (toString (round (((e.tempC : ℚ) * 9) / 5 + 32)) ++ "°F")
            rep = true) ∧
    (∃ rep,
        (get_weather "New York"
            [("user_preference_temperature_unit", SVal.s "Fahrenheit")]).1 =
          WeatherResult.success rep ∧
        strContains "77°F" rep = true) ∧
    (∃ rep,
        (get_weather "London"
            [("user_preference_temperature_unit", SVal.s "Celsius")]).1 =
          WeatherResult.success rep ∧
        strContains "15°C" rep = true ∧ strContains "cloudy" rep = true) := by
  refine ⟨?_, ⟨_, rfl, by decide⟩, ⟨_, rfl, by decide, by decide⟩⟩
  intro st city e hpref hdb
  have hunit : preferredUnit st = SVal.s "Fahrenheit" := by
    simp [preferredUnit, hpref]
  have hres : (get_weather city st).1 = WeatherResult.success
      ("The weather in " ++ pyCapitalize city ++ " is " ++ e.condition ++
        " with a temperature of " ++ fmtFahrenheit e.tempC ++ "°F" ++ ".") := by
    simp [get_weather, hdb, hunit]
  rw [← fmtFahrenheit_eq_round]
  refine ⟨_, hres, ?_⟩
  simp only [strContains, String.data_append, List.append_assoc]
  apply containsSub_append_left
  apply containsSub_append_left
  apply containsSub_append_left
  apply containsSub_append_left
  apply containsSub_append_left
  rw [← List.append_assoc]
  exact containsSub_self_append _ _

/-- Witness for C3's universally quantified part at Tokyo (18°C): the
Fahrenheit report rounds 64.4 to 64. -/
theorem c3_witness :
    stateGet [("user_preference_temperature_unit", SVal.s "Fahrenheit")]
        "user_preference_temperature_unit" = some (SVal.s "Fahrenheit") ∧
      mock_weather_db.lookup (normalizeCity "Tokyo") = some ⟨18, "light rain"⟩ ∧
      ∃ rep,
        (get_weather "Tokyo"
            [("user_preference_temperature_unit", SVal.s "Fahrenheit")]).1 =
          WeatherResult.success rep ∧
        strContains
          (toString (round (((18 : ℕ) : ℚ) * 9 / 5 + 32)) ++ "°F") rep = true :=
  ⟨by decide, by decide,
    c3_fahrenheit_conversion.1
      [("user_preference_temperature_unit", SVal.s "Fahrenheit")]
      "Tokyo" ⟨18, "light rain"⟩ (by decide) (by decide)⟩

/-- The dispatcher only looks at the consumed prefix: the response of an
event sequence equals the response of its prefix up to and including the
first final event. -/
theorem call_agent_async_text_upToFirstFinal (evs : List Event) :
    call_agent_async_text (upToFirstFinal evs) = call_agent_async_text evs := by
  induction evs with
  | nil => rfl
  | cons e rest ih =>
    by_cases hf : e.final
    · simp [upToFirstFinal, hf, call_agent_async_text]
    · simp [upToFirstFinal, hf, call_agent_async_text, ih]

/-- Claim C7: the visible response is determined entirely by the prefix
of the event sequence up to and including the first final event — two
sequences agreeing on that prefix (in particular, a sequence and any
mutation of the events after its first final event) produce the same
response, because consumption stops there and the rest is discarded. -/
theorem c7_response_determined_by_consumed_prefix (xs ys : List Event)
    (h : upToFirstFinal xs = upToFirstFinal ys) :
    call_agent_async_text xs = call_agent_async_text ys := by
  rw [← call_agent_async_text_upToFirstFinal xs,
    ← call_agent_async_text_upToFirstFinal ys, h]

/-- Witness for C7: appending a junk event after the final event does
not change the response. -/
theorem c7_witness :
    upToFirstFinal [Event.mk true (some ⟨"model", [⟨some "done"⟩]⟩) none none] =
        upToFirstFinal
          [Event.mk true (some ⟨"model", [⟨some "done"⟩]⟩) none none,
            Event.mk false (some ⟨"model", [⟨some "junk"⟩]⟩) none none] ∧
      call_agent_async_text
          [Event.mk true (some ⟨"model", [⟨some "done"⟩]⟩) none none] =
        call_agent_async_text
          [Event.mk true (some ⟨"model", [⟨some "done"⟩]⟩) none none,
            Event.mk false (some ⟨"model", [⟨some "junk"⟩]⟩) none none] :=
  ⟨by decide,
    c7_response_determined_by_consumed_prefix
      [Event.mk true (some ⟨"model", [⟨some "done"⟩]⟩) none none]
      [Event.mk true (some ⟨"model", [⟨some "done"⟩]⟩) none none,
        Event.mk false (some ⟨"model", [⟨some "junk"⟩]⟩) none none]
      (by decide)⟩

/-- Counterexample to claim C5 as stated: for the event sequence with no
final event (here the empty one) the visible response is the code's
default sentence `Agent did not produce a final response.`, not the
sentence `no final response produced` the claim names. -/
theorem c5_counterexample :
    (([] : List Event).all fun e => !e.final) = true ∧
      call_agent_async_text [] = some "Agent did not produce a final response." ∧
      call_agent_async_text [] ≠ some "no final response produced" := by
  refine ⟨rfl, rfl, ?_⟩
  decide

/-- Claim C5 as amended: for every event sequence in which no event is
flagged final, the visible response is the fixed fallback sentence
`Agent did not produce a final response.`, the same for every such
sequence. -/
theorem c5_no_final_fixed_fallback (evs : List Event)
    (h : (evs.all fun e => !e.final) = true) :
    call_agent_async_text evs = some "Agent did not produce a final response." := by
  induction evs with
  | nil => rfl
  | cons e rest ih =>
    simp only [List.all_cons, Bool.and_eq_true, Bool.not_eq_true'] at h
    simp [call_agent_async_text, h.1, ih h.2]

/-- Witness for amended C5 at a concrete two-event non-final sequence. -/
theorem c5_witness :
    (([Event.mk false none none none,
        Event.mk false (some ⟨"model", [⟨some "thinking"⟩]⟩) none none] :
          List Event).all fun e => !e.final) = true ∧
      call_agent_async_text
          [Event.mk false none none none,
            Event.mk false (some ⟨"model", [⟨some "thinking"⟩]⟩) none none] =
        some "Agent did not produce a final response." :=
  ⟨by decide,
    c5_no_final_fixed_fallback
      [Event.mk false none none none,
        Event.mk false (some ⟨"model", [⟨some "thinking"⟩]⟩) none none]
      (by decide)⟩

/-- Claim C6: when the first final event of the sequence has no content
parts (its `content` is `None` or its parts list is empty) but carries an
escalation signal, the visible response is the escalation message built
from the event's error text by Python's `or` (so `None` and the empty
string both fall back), and when the error text is absent (`None`) it is
exactly `Agent escalated: No specific message.`. -/
theorem c6_escalation_message (evs : List Event) (e : Event)
    (hfind : evs.find? (fun ev => ev.final) = some e)
    (hnoparts : e.content = none ∨ ∃ c, e.content = some c ∧ c.parts = [])
    (hesc : e.actions = some ⟨true⟩) :
    call_agent_async_text evs =
        some ("Agent escalated: " ++ pyOrStr e.errorMessage "No specific message.") ∧
      (e.errorMessage = none →
        call_agent_async_text evs = some "Agent escalated: No specific message.") := by
  induction evs with
  | nil => simp at hfind
  | cons ev rest ih =>
    by_cases hf : ev.final
    · rw [List.find?_cons_of_pos _ hf] at hfind
      injection hfind with heq
      subst heq
      have hbranch : call_agent_async_text (ev :: rest) =
          some ("Agent escalated: " ++ pyOrStr ev.errorMessage "No specific message.") := by
        rcases hnoparts with hc | ⟨c, hc, hparts⟩
        · simp [call_agent_async_text, hf, hc, hesc]
        · obtain ⟨r, ps⟩ := c
          simp only at hparts
          subst hparts
          simp [call_agent_async_text, hf, hc, hesc]
      refine ⟨hbranch, fun hnone => ?_⟩
      rw [hbranch, hnone]
      rfl
    · rw [List.find?_cons_of_neg _ hf] at hfind
      have hstep : call_agent_async_text (ev :: rest) = call_agent_async_text rest := by
        simp [call_agent_async_text, hf]
      rw [hstep]
      exact ih hfind

/-- Witness for C6 at a sequence whose first final event escalates with
no content and no error text. -/
theorem c6_witness :
    ([Event.mk false (some ⟨"model", [⟨some "working"⟩]⟩) none none,
        Event.mk true none (some ⟨true⟩) none] : List Event).find?
          (fun ev => ev.final) = some (Event.mk true none (some ⟨true⟩) none) ∧
      call_agent_async_text
          [Event.mk false (some ⟨"model", [⟨some "working"⟩]⟩) none none,
            Event.mk true none (some ⟨true⟩) none] =
        some "Agent escalated: No specific message." :=
  ⟨by decide,
    (c6_escalation_message
        [Event.mk false (some ⟨"model", [⟨some "working"⟩]⟩) none none,
          Event.mk true none (some ⟨true⟩) none]
        (Event.mk true none (some ⟨true⟩) none)
        (by decide) (Or.inl rfl) rfl).2 rfl⟩

/-- Claim C2: whenever the tool name is `get_weather` and the `city`
argument is non-empty and equals `paris` up to letter case, the pre-tool
hook overrides with an error dictionary whose message mentions the
policy restriction, and sets `guardrail_tool_block_triggered` to true;
for every other tool name or city value it proceeds (`None`) with the
state untouched, so the real tool runs. -/
theorem c2_block_city_tool_guardrail (st : SessState) (toolName : String)
    (args : List (String × String)) :
    (toolName = "get_weather" → cityArg args ≠ "" →
      pyLower (cityArg args) = "paris" →
      ∃ m, block_city_tool_guardrail st toolName args =
          (some (WeatherResult.error m),
            stateSet st "guardrail_tool_block_triggered" (SVal.b true)) ∧
        strContains "Policy restriction" m = true ∧
        stateGet (block_city_tool_guardrail st toolName args).2
            "guardrail_tool_block_triggered" = some (SVal.b true)) ∧
    (toolName ≠ "get_weather" ∨ cityArg args = "" ∨
        pyLower (cityArg args) ≠ "paris" →
      block_city_tool_guardrail st toolName args = (none, st)) := by
  constructor
  · intro ht hne hp
    have hres : block_city_tool_guardrail st toolName args =
        (some (WeatherResult.error
            ("Policy restriction: Weather checks for '" ++
              pyCapitalize (cityArg args) ++
              "' are currently disabled by a tool guardrail.")),
          stateSet st "guardrail_tool_block_triggered" (SVal.b true)) := by
      simp [block_city_tool_guardrail, ht, hne, hp]
    refine ⟨_, hres, ?_, ?_⟩
    · have hsplit : ("Policy restriction: Weather checks for '" : String) =
          "Policy restriction" ++ ": Weather checks for '" := rfl
      rw [hsplit]
      simp only [strContains, String.data_append, List.append_assoc]
      exact containsSub_self_append _ _
    · rw [hres]
      simp [stateGet, stateSet, List.lookup]
  · intro h
    rcases h with h | h | h
    · simp [block_city_tool_guardrail, h]
    · by_cases ht : toolName = "get_weather" <;>
        simp [block_city_tool_guardrail, ht, h]
    · by_cases ht : toolName = "get_weather" <;>
        simp [block_city_tool_guardrail, ht, h]

/-- Witness for C2: the scenario-C call, tool `get_weather` with city
`Paris`, is overridden with the policy-restriction error and the state
flag set. -/
theorem c2_witness :
    pyLower (cityArg [("city", "Paris")]) = "paris" ∧
      ∃ m, block_city_tool_guardrail [] "get_weather" [("city", "Paris")] =
          (some (WeatherResult.error m),
            stateSet [] "guardrail_tool_block_triggered" (SVal.b true)) ∧
        strContains "Policy restriction" m = true ∧
        stateGet (block_city_tool_guardrail [] "get_weather"
              [("city", "Paris")]).2
            "guardrail_tool_block_triggered" = some (SVal.b true) :=
  ⟨by decide,
    (c2_block_city_tool_guardrail [] "get_weather" [("city", "Paris")]).1
      rfl (by decide) (by decide)⟩

/-- Counterexample to claim C1 as stated: in this request the most
recent user message carries the empty text (no `BLOCK` in any letter
case), yet the hook overrides, because the scan loop does not stop at a
user message whose first-part text is falsy and instead inspects the
older user message `please BLOCK this order`. -/
theorem c1_counterexample :
    specMostRecentUserText
        [⟨"user", [⟨some "please BLOCK this order"⟩]⟩,
          ⟨"model", [⟨some "ok"⟩]⟩,
          ⟨"user", [⟨some ""⟩]⟩] = some "" ∧
      strContains "BLOCK" (pyUpper "") = false ∧
      (block_keyword_guardrail []
          ⟨[⟨"user", [⟨some "please BLOCK this order"⟩]⟩,
            ⟨"model", [⟨some "ok"⟩]⟩,
            ⟨"user", [⟨some ""⟩]⟩]⟩).1 = some blockedLlmResponse := by
  refine ⟨rfl, rfl, ?_⟩
  decide

/-- Claim C1 as amended: for every request, with the inspected text
defined as the code extracts it (the first-part text of the most recent
user message whose first part carries nonempty text, empty if none),
the hook overrides with the synthetic model-role response and sets
`guardrail_block_keyword_triggered` to true exactly when the upper-cased
inspected text contains `BLOCK`, and otherwise proceeds (`None`) leaving
the state — hence that key — untouched. -/
theorem c1_block_keyword_guardrail_amended (st : SessState) (req : LlmRequest) :
    blockedLlmResponse.content.role = "model" ∧
    (strContains "BLOCK" (pyUpper (lastUserMessageText req.contents)) = true →
      block_keyword_guardrail st req =
          (some blockedLlmResponse,
            stateSet st "guardrail_block_keyword_triggered" (SVal.b true)) ∧
        stateGet (block_keyword_guardrail st req).2
            "guardrail_block_keyword_triggered" = some (SVal.b true)) ∧
    (strContains "BLOCK" (pyUpper (lastUserMessageText req.contents)) = false →
      block_keyword_guardrail st req = (none, st)) := by
  refine ⟨rfl, ?_, ?_⟩
  · intro h
    constructor
    · simp [block_keyword_guardrail, h]
    · simp [block_keyword_guardrail, h, stateGet, stateSet, List.lookup]
  · intro h
    simp [block_keyword_guardrail, h]

/-- Witness for amended C1: a blocked request (keyword in lower case)
and an allowed request, both concrete. -/
theorem c1_witness :
    strContains "BLOCK"
        (pyUpper (lastUserMessageText
          [⟨"user", [⟨some "please block the weather call"⟩]⟩])) = true ∧
      block_keyword_guardrail []
          ⟨[⟨"user", [⟨some "please block the weather call"⟩]⟩]⟩ =
        (some blockedLlmResponse,
          stateSet [] "guardrail_block_keyword_triggered" (SVal.b true)) ∧
      strContains "BLOCK"
        (pyUpper (lastUserMessageText
          [⟨"user", [⟨some "weather in London?"⟩]⟩])) = false ∧
      block_keyword_guardrail [] ⟨[⟨"user", [⟨some "weather in London?"⟩]⟩]⟩ =
        (none, []) :=
  ⟨by decide,
    ((c1_block_keyword_guardrail_amended []
        ⟨[⟨"user", [⟨some "please block the weather call"⟩]⟩]⟩).2.1
      (by decide)).1,
    by decide,
    (c1_block_keyword_guardrail_amended []
        ⟨[⟨"user", [⟨some "weather in London?"⟩]⟩]⟩).2.2 (by decide)⟩

/-- Counterexample to claim C4 as stated: here the most recent user
message holds its (nonempty) text in its second part, so under the claim
the inspected text would be `hello there`; the code instead skips that
message (its first part has no text) and inspects the older user
message, yielding `older message`. -/
theorem c4_counterexample :
    lastUserMessageText
        [⟨"user", [⟨some "older message"⟩]⟩,
          ⟨"user", [⟨none⟩, ⟨some "hello there"⟩]⟩] = "older message" ∧
      specMostRecentUserText
        [⟨"user", [⟨some "older message"⟩]⟩,
          ⟨"user", [⟨none⟩, ⟨some "hello there"⟩]⟩] = some "hello there" ∧
      ("older message" : String) ≠ "hello there" := by
  refine ⟨rfl, rfl, ?_⟩
  decide

/-- The scan loop agrees with a `find?` formulation: it returns the
first-part text of the first listed message whose role is `user` and
whose first part carries nonempty text, or the empty string. -/
theorem findUserText_eq_find (l : List Content) :
    findUserText l =
      match l.find?
          (fun c => c.role == "user" && ((firstPartText c).getD "" != "")) with
      | none => ""
      | some c => (firstPartText c).getD "" := by
  induction l with
  | nil => rfl
  | cons c rest ih =>
    by_cases hpc :
        (c.role == "user" && ((firstPartText c).getD "" != "")) = true
    · rw [List.find?_cons_of_pos
        (p := fun c => c.role == "user" && ((firstPartText c).getD "" != ""))
        rest hpc]
      simp only [Bool.and_eq_true, beq_iff_eq, bne_iff_ne, ne_eq] at hpc
      obtain ⟨hrole, hne⟩ := hpc
      cases hft : firstPartText c with
      | none => exact absurd (by simp [hft]) hne
      | some t =>
        have ht : ¬(t = "") := by simpa [hft] using hne
        simp [findUserText, hrole, hft, ht]
    · rw [List.find?_cons_of_neg
        (p := fun c => c.role == "user" && ((firstPartText c).getD "" != ""))
        rest hpc]
      simp only [Bool.and_eq_true, beq_iff_eq, bne_iff_ne, ne_eq,
        not_and_or, not_not] at hpc
      rcases hpc with hrole | hge
      · simp [findUserText, hrole, ih]
      · by_cases hrole : c.role = "user"
        · cases hft : firstPartText c with
          | none => simp [findUserText, hrole, hft, ih]
          | some t =>
            have ht : t = "" := by simpa [hft] using hge
            simp [findUserText, hrole, hft, ht, ih]
        · simp [findUserText, hrole, ih]

/-- Claim C4 as amended: for every request history, the text the
pre-model hook inspects is the first-part text of the most recent
message whose role is `user`, whose parts are nonempty and whose first
part carries nonempty text (scanning from the most recent message
backward), defaulting to the empty string when no such message exists. -/
theorem c4_inspected_text_amended (contents : List Content) :
    lastUserMessageText contents = specLatestUsableUserText contents := by
  unfold lastUserMessageText specLatestUsableUserText
  exact findUserText_eq_find contents.reverse
